import Mathlib

/-!
Verification development for the `sensor_data_import` repository's CSV
ingestion pipeline (`scanner/csv_scanner.go`).  The Go code is shallowly
embedded: rows are lists of strings, files are lists of rows, the database
is an explicit store of unique `(timestamp, sensor_name)` keys, and the
relevant pieces of the Go standard library (`time.Parse` for the three
layouts used, `strconv.ParseFloat` acceptance, `strings` helpers) are
modelled as executable Lean functions.
-/

set_option maxRecDepth 8000
set_option exponentiation.threshold 1100

namespace SensorImport

/-! ### ASCII / string helpers (Go `strings` package, on the ASCII subset
the pipeline's header words and float specials use) -/

/-- Lower-case a single ASCII character (Go lower-casing restricted to the
ASCII range, which is all the pipeline compares case-insensitively). -/
def lowerAscii (c : Char) : Char :=
  if 'A' ≤ c ∧ c ≤ 'Z' then Char.ofNat (c.toNat + 32) else c

/-- Model of Go `strings.ToLower` on ASCII input. -/
def goToLower (s : String) : String :=
  String.mk (s.toList.map lowerAscii)

/-- Whitespace as Go `unicode.IsSpace` recognises it on the Latin-1
range: space, tab, newline, vertical tab, form feed, carriage return,
next line, and no-break space. -/
def isSpaceCh (c : Char) : Bool :=
  c = ' ' || c = '\t' || c = '\n' || c = '\r'
    || c.toNat = 0x0B || c.toNat = 0x0C || c.toNat = 0x85 || c.toNat = 0xA0

/-- Model of Go `strings.TrimSpace`: leading and trailing whitespace
removed. -/
def goTrim (s : String) : String :=
  String.mk (((s.toList.dropWhile isSpaceCh).reverse.dropWhile isSpaceCh).reverse)

/-- Model of Go `strings.Contains s sub`: `sub` occurs as a contiguous
substring of `s`. -/
def goContains (s sub : String) : Bool :=
  (List.range (s.toList.length + 1)).any
    (fun i => sub.toList.isPrefixOf (s.toList.drop i))

/-- Decimal digit test. -/
def isDigitCh (c : Char) : Bool := '0' ≤ c && c ≤ '9'

/-- Numeric value of a decimal digit character. -/
def digitVal (c : Char) : Nat := c.toNat - '0'.toNat

/-! ### Go `time.Parse` for the three layouts the scanner tries

The scanner calls `time.Parse` with layouts `time.RFC3339`
(`"2006-01-02T15:04:05Z07:00"`), `"2006-01-02T15:04:05"` and
`"2006-01-02 15:04:05"`.  Go's general layout parser reads: a 4-digit
year, literal `-`, 2-digit month, literal `-`, 2-digit day, the literal
separator (`T` or space), a 1-or-2-digit hour, `:`, 2-digit minute, `:`,
2-digit second, an optional unlayouted fractional second (`.` or `,`
followed by digits), and for RFC 3339 a zone: `Z` or `±hh:mm`.  Month,
day (against the month's length, leap years included), hour, minute and
second are range-checked and the whole input must be consumed.  The
result is an instant; parsing a zoneless layout yields the same clock
reading in UTC, and Go's `Time.UTC()` does not change the instant. -/

/-- An instant as Go's `time.Time` carries it: seconds since the Unix
epoch plus a nanosecond part. -/
structure GoTime where
  sec : Int
  nsec : Nat
  deriving DecidableEq, Repr

/-- Read exactly two decimal digits (Go's `getnum` with `fixed = true`). -/
def getnum2 : List Char → Option (Nat × List Char)
  | c1 :: c2 :: rest =>
      if isDigitCh c1 && isDigitCh c2 then
        some (digitVal c1 * 10 + digitVal c2, rest)
      else none
  | _ => none

/-- Read two decimal digits if both are present, else one (Go's `getnum`
with `fixed = false`, used for the hour field). -/
def getnum1or2 : List Char → Option (Nat × List Char)
  | c1 :: c2 :: rest =>
      if isDigitCh c1 && isDigitCh c2 then
        some (digitVal c1 * 10 + digitVal c2, rest)
      else if isDigitCh c1 then some (digitVal c1, c2 :: rest)
      else none
  | [c1] => if isDigitCh c1 then some (digitVal c1, []) else none
  | [] => none

/-- Read exactly four decimal digits (Go's long-year field `2006`). -/
def getnum4 : List Char → Option (Nat × List Char)
  | a :: b :: c :: d :: rest =>
      if isDigitCh a && isDigitCh b && isDigitCh c && isDigitCh d then
        some (((digitVal a * 10 + digitVal b) * 10 + digitVal c) * 10 + digitVal d, rest)
      else none
  | _ => none

/-- Consume one expected literal character. -/
def expectChar (c : Char) : List Char → Option (List Char)
  | x :: rest => if x = c then some rest else none
  | [] => none

/-- Longest prefix of decimal digits. -/
def takeDigits : List Char → (List Char × List Char)
  | [] => ([], [])
  | c :: rest =>
      if isDigitCh c then
        let (ds, r) := takeDigits rest
        (c :: ds, r)
      else ([], c :: rest)

/-- Nanoseconds denoted by a fractional-second digit string: Go keeps at
most nine digits and scales them to nanoseconds. -/
def nsecOfDigits (ds : List Char) : Nat :=
  let ds9 := ds.take 9
  (ds9.foldl (fun acc c => acc * 10 + digitVal c) 0) * 10 ^ (9 - ds9.length)

/-- Optional unlayouted fractional second after the seconds field: a `.`
or `,` immediately followed by at least one digit consumes all following
digits; otherwise nothing is consumed. -/
def parseFracOpt : List Char → (Nat × List Char)
  | c :: d :: rest =>
      if (c = '.' || c = ',') && isDigitCh d then
        let (ds, r) := takeDigits (d :: rest)
        (nsecOfDigits ds, r)
      else (0, c :: d :: rest)
  | other => (0, other)

/-- RFC 3339 zone field `Z07:00`: a literal `Z`, or a sign followed by two
digits, `:`, and two digits; yields the zone offset in seconds. -/
def parseTZ : List Char → Option (Int × List Char)
  | 'Z' :: rest => some (0, rest)
  | s :: h1 :: h2 :: ':' :: m1 :: m2 :: rest =>
      if (s = '+' || s = '-') && isDigitCh h1 && isDigitCh h2
          && isDigitCh m1 && isDigitCh m2 then
        let off : Int :=
          ((digitVal h1 * 10 + digitVal h2) * 60 + (digitVal m1 * 10 + digitVal m2)) * 60
        some (if s = '-' then -off else off, rest)
      else none
  | _ => none

/-- Gregorian leap-year test. -/
def isLeapYear (y : Nat) : Bool := y % 4 = 0 && (y % 100 ≠ 0 || y % 400 = 0)

/-- Number of days in a month of a given year. -/
def daysInMonth (y m : Nat) : Nat :=
  if m = 2 then (if isLeapYear y then 29 else 28)
  else if m = 4 ∨ m = 6 ∨ m = 9 ∨ m = 11 then 30
  else 31

/-- Days from the Unix epoch to the civil date `y-m-d` (years 0–9999),
via the Julian day number. -/
def epochDays (y m d : Nat) : Int :=
  let a := (14 - m) / 12
  let y' := y + 4800 - a
  let m' := m + 12 * a - 3
  (Int.ofNat (d + (153 * m' + 2) / 5 + 365 * y' + y' / 4 - y' / 100 + y' / 400))
    - 32045 - 2440588

/-- The three timestamp layouts the scanner tries, in order. -/
inductive TsLayout
  | rfc3339
  | isoNoTZ
  | spaceSep
  deriving DecidableEq, Repr

/-- Date/time separator of a layout. -/
def TsLayout.sep : TsLayout → Char
  | .rfc3339 => 'T'
  | .isoNoTZ => 'T'
  | .spaceSep => ' '

/-- Whether the layout carries a zone field. -/
def TsLayout.hasTZ : TsLayout → Bool
  | .rfc3339 => true
  | _ => false

/-- Go `time.Parse` with one of the scanner's three layouts: fields read
in layout order, the whole input consumed, calendar fields range-checked,
and the instant computed in UTC (zoneless layouts default to UTC, and the
scanner's later `.UTC()` call does not change the instant). -/
def goTimeParseLayout (lay : TsLayout) (s : String) : Option GoTime := do
  let cs0 := s.toList
  let (y, cs1) ← getnum4 cs0
  let cs2 ← expectChar '-' cs1
  let (mo, cs3) ← getnum2 cs2
  let cs4 ← expectChar '-' cs3
  let (d, cs5) ← getnum2 cs4
  let cs6 ← expectChar lay.sep cs5
  let (h, cs7) ← getnum1or2 cs6
  let cs8 ← expectChar ':' cs7
  let (mi, cs9) ← getnum2 cs8
  let cs10 ← expectChar ':' cs9
  let (sec, cs11) ← getnum2 cs10
  let (ns, cs12) := parseFracOpt cs11
  let (off, cs13) ←
    if lay.hasTZ then parseTZ cs12 else some ((0 : Int), cs12)
  if cs13 = [] ∧ 1 ≤ mo ∧ mo ≤ 12 ∧ 1 ≤ d ∧ d ≤ daysInMonth y mo
      ∧ h < 24 ∧ mi < 60 ∧ sec < 60 then
    some ⟨epochDays y mo d * 86400 + h * 3600 + mi * 60 + sec - off, ns⟩
  else none

/-- `time.Parse (time.RFC3339)` as the scanner calls it. -/
def parseRFC3339 (s : String) : Option GoTime := goTimeParseLayout .rfc3339 s

/-- `time.Parse "2006-01-02T15:04:05"` as the scanner calls it. -/
def parseISONoTZ (s : String) : Option GoTime := goTimeParseLayout .isoNoTZ s

/-- `time.Parse "2006-01-02 15:04:05"` as the scanner calls it. -/
def parseSpaceSep (s : String) : Option GoTime := goTimeParseLayout .spaceSep s

/-- The scanner's timestamp fallback chain (csv_scanner.go lines 252-265):
RFC 3339 first, then the zoneless ISO variant, then the space-separated
variant; the first success wins. -/
def goParseTimestamp (s : String) : Option GoTime :=
  match parseRFC3339 s with
  | some t => some t
  | none =>
    match parseISONoTZ s with
    | some t => some t
    | none => parseSpaceSep s

/-! ### Go `strconv.ParseFloat` acceptance

The scanner classifies a value cell by whether `strconv.ParseFloat(v, 64)`
returns a nil error.  That call succeeds exactly when the input is one of
the special spellings (`inf`/`infinity` with optional sign, `nan`, all
case-insensitive), or matches Go's float syntax (optional sign, decimal or
`0x` hexadecimal mantissa with an optional radix point, an optional
`e`/`E` decimal exponent — mandatory `p`/`P` for hexadecimal — and
correctly placed underscores) with the whole input consumed and the
denoted magnitude not rounding beyond the largest finite `float64`
(otherwise `ParseFloat` reports a range error). -/

/-- Hexadecimal letter test (after ASCII lower-casing). -/
def isHexLetter (c : Char) : Bool := 'a' ≤ lowerAscii c && lowerAscii c ≤ 'f'

/-- Case-insensitive (ASCII) equality of character lists. -/
def eqIgnoreCase (a b : List Char) : Bool :=
  a.length == b.length && (a.zip b).all (fun p => lowerAscii p.1 = lowerAscii p.2)

/-- Go's special float spellings, accepted in full: `inf` or `infinity`
with an optional sign, or `nan`, all case-insensitive. -/
def specialFloat (cs : List Char) : Bool :=
  let infBody := fun (l : List Char) =>
    eqIgnoreCase l ("inf".toList) || eqIgnoreCase l ("infinity".toList)
  match cs with
  | [] => false
  | c :: rest =>
      if c = '+' ∨ c = '-' then infBody rest
      else if c = 'i' ∨ c = 'I' then infBody (c :: rest)
      else if c = 'n' ∨ c = 'N' then eqIgnoreCase (c :: rest) ("nan".toList)
      else false

/-- Accumulator of Go `readFloat`'s mantissa loop. -/
structure MantState where
  sawdot : Bool := false
  sawdigits : Bool := false
  digits : List Char := []
  dpDot : Nat := 0
  usc : Bool := false

/-- Mantissa loop of Go `readFloat`: consumes digits (hexadecimal ones
when `hex`), underscores, and at most one radix point, recording the
digit string and the position of the point. -/
def mantLoop (hex : Bool) : List Char → MantState → MantState × List Char
  | [], st => (st, [])
  | c :: rest, st =>
      if c = '_' then mantLoop hex rest { st with usc := true }
      else if c = '.' then
        if st.sawdot then (st, c :: rest)
        else mantLoop hex rest { st with sawdot := true, dpDot := st.digits.length }
      else if isDigitCh c || (hex && isHexLetter c) then
        mantLoop hex rest { st with sawdigits := true, digits := st.digits ++ [c] }
      else (st, c :: rest)

/-- Exponent-digit loop of Go `readFloat`: digits and underscores, with
Go's saturation of the accumulated exponent at 10000. -/
def expLoop : List Char → Nat → Bool → (Nat × Bool × List Char)
  | [], e, usc => (e, usc, [])
  | c :: rest, e, usc =>
      if c = '_' then expLoop rest e true
      else if isDigitCh c then
        expLoop rest (if e < 10000 then e * 10 + digitVal c else e) usc
      else (e, usc, c :: rest)

/-- Character-class loop of Go `underscoreOK`: `saw` is `'0'` after a
digit, `'_'` after an underscore, `'^'` at the start and `'!'` otherwise;
an underscore must stand between two digits. -/
def uscLoop (hex : Bool) : List Char → Char → Bool
  | [], saw => saw ≠ '_'
  | c :: rest, saw =>
      if isDigitCh c || (hex && isHexLetter c) then uscLoop hex rest '0'
      else if c = '_' then
        if saw ≠ '0' then false else uscLoop hex rest '_'
      else if saw = '_' then false
      else uscLoop hex rest '!'

/-- Go `strconv.underscoreOK`: underscores may separate successive digits
or follow a base prefix. -/
def underscoreOK (cs : List Char) : Bool :=
  let cs1 := match cs with
    | c :: rest => if c = '-' ∨ c = '+' then rest else c :: rest
    | [] => []
  match cs1 with
  | a :: b :: rest =>
      if a = '0' ∧ (lowerAscii b = 'b' ∨ lowerAscii b = 'o' ∨ lowerAscii b = 'x') then
        uscLoop (lowerAscii b = 'x') rest '0'
      else uscLoop false cs1 '^'
  | _ => uscLoop false cs1 '^'

/-- A syntactically accepted float literal: sign, base, mantissa digit
string, number of digits before the radix point, and signed exponent
(a power of ten, or of two for hexadecimal literals). -/
structure FloatNum where
  neg : Bool
  hex : Bool
  digits : List Char
  dp : Nat
  exp : Int
  deriving Repr

/-- Go `readFloat` combined with `ParseFloat`'s demand that the whole
input be consumed: `some` exactly on syntactically valid full-string
float literals, returning the literal's components. -/
def readFloatAccept (cs : List Char) : Option FloatNum :=
  let signSplit : Bool × List Char := match cs with
    | '+' :: r => (false, r)
    | '-' :: r => (true, r)
    | r => (false, r)
  let neg := signSplit.1
  let hexSplit : Bool × List Char := match signSplit.2 with
    | '0' :: x :: c :: r =>
        if lowerAscii x = 'x' then (true, c :: r) else (false, signSplit.2)
    | _ => (false, signSplit.2)
  let hex := hexSplit.1
  let ml := mantLoop hex hexSplit.2 {}
  let st := ml.1
  if st.sawdigits = false then none
  else
    let dp := if st.sawdot then st.dpDot else st.digits.length
    let expChar := if hex then 'p' else 'e'
    match ml.2 with
    | [] =>
        if hex then none
        else if st.usc && !underscoreOK cs then none
        else some ⟨neg, hex, st.digits, dp, 0⟩
    | c :: r =>
        if lowerAscii c ≠ expChar then none
        else
          let esignSplit : Int × List Char := match r with
            | '+' :: r' => ((1 : Int), r')
            | '-' :: r' => ((-1 : Int), r')
            | r' => ((1 : Int), r')
          match esignSplit.2 with
          | [] => none
          | d :: _ =>
              if !isDigitCh d then none
              else
                let el := expLoop esignSplit.2 0 false
                if el.2.2 ≠ [] then none
                else if (st.usc || el.2.1) && !underscoreOK cs then none
                else some ⟨neg, hex, st.digits, dp, esignSplit.1 * (el.1 : Int)⟩

/-- Numeric value of a digit string in the given base. -/
def digitsVal (base : Nat) (ds : List Char) : Nat :=
  ds.foldl
    (fun acc c => acc * base + (if isDigitCh c then digitVal c else (lowerAscii c).toNat - 'a'.toNat + 10))
    0

/-- Smallest magnitude that `float64` rounding turns into infinity, at
which point `ParseFloat` reports a range error. -/
def overflowThreshold : Nat := (2 ^ 54 - 1) * 2 ^ 970

/-- Whether the exact value of an accepted literal reaches the `float64`
overflow threshold. -/
def floatOverflows (f : FloatNum) : Bool :=
  let m := digitsVal (if f.hex then 16 else 10) f.digits
  if m = 0 then false
  else
    let base : Nat := if f.hex then 2 else 10
    let t : Int :=
      if f.hex then 4 * ((f.dp : Int) - (f.digits.length : Int)) + f.exp
      else (f.dp : Int) - (f.digits.length : Int) + f.exp
    if 0 ≤ t then decide (overflowThreshold ≤ m * base ^ t.toNat)
    else decide (overflowThreshold * base ^ (-t).toNat ≤ m)

/-- Model of `strconv.ParseFloat s 64` returning a nil error, as the
scanner's value check uses it (csv_scanner.go line 277). -/
def parseFloatAccepts (s : String) : Bool :=
  specialFloat s.toList ||
    (match readFloatAccept s.toList with
     | some f => !floatOverflows f
     | none => false)

/-! ### The record parser (`parseCSVRecords` and `isHeaderRow`)

A CSV row is a list of cell strings (Go's `csv.Reader` with
`FieldsPerRecord = -1` already splits lines into such lists).  The value
cell of an emitted reading is kept as its accepted source text, since no
claim depends on floating-point arithmetic on it; `Timestamp` is the UTC
instant (`time.Parse` result, unchanged by `.UTC()`). -/

/-- A parsed sensor reading (`models.SensorData` as the scanner fills it:
timestamp, sensor name, value). -/
structure SensorData where
  timestamp : GoTime
  sensorName : String
  value : String
  deriving DecidableEq, Repr

/-- Classified outcome of the scanner's per-row processing: the row is
silently skipped (empty row), rejected with one of the four logged error
reasons, or yields a reading. -/
inductive RowOutcome
  | skippedEmpty
  | insufficientColumns
  | invalidTimestamp
  | emptySensorName
  | invalidValue
  | ok (d : SensorData)
  deriving DecidableEq, Repr

/-- Per-row body of the loop in `parseCSVRecords` (csv_scanner.go lines
236-290): skip empty rows, require at least 3 columns, parse the
timestamp through the three-format chain, require a non-empty sensor
name, require a `ParseFloat`-accepted value, and otherwise emit a
reading. -/
def parseRow (record : List String) : RowOutcome :=
  if record.length = 0 ∨ (record.length = 1 ∧ goTrim (record.getD 0 "") = "") then
    .skippedEmpty
  else if record.length < 3 then .insufficientColumns
  else
    let timestampStr := goTrim (record.getD 0 "")
    match goParseTimestamp timestampStr with
    | none => .invalidTimestamp
    | some t =>
      let sensorName := goTrim (record.getD 1 "")
      if sensorName = "" then .emptySensorName
      else
        let valueStr := goTrim (record.getD 2 "")
        if parseFloatAccepts valueStr then .ok ⟨t, sensorName, valueStr⟩
        else .invalidValue

/-- The loop of `parseCSVRecords` over the data rows (after any header
skip): collects the emitted readings in order and counts the error
rows. -/
def parseRows : List (List String) → List SensorData × Nat
  | [] => ([], 0)
  | r :: rest =>
    let p := parseRows rest
    match parseRow r with
    | .ok d => (d :: p.1, p.2)
    | .skippedEmpty => (p.1, p.2)
    | _ => (p.1, p.2 + 1)

/-- Classified outcomes of the data rows in order (the scanner logs one
distinctly-worded warning per error outcome). -/
def rowOutcomes (rows : List (List String)) : List RowOutcome :=
  rows.map parseRow

/-- The four header words of `isHeaderRow`. -/
def headerWords : List String := ["timestamp", "time", "date", "datetime"]

/-- `isHeaderRow` (csv_scanner.go lines 296-314): rows of fewer than 3
cells are never headers; otherwise the row is a header when its first
cell, trimmed and lower-cased, contains one of the header words, or when
the trimmed first cell fails to parse under RFC 3339. -/
def isHeaderRow (row : List String) : Bool :=
  if row.length < 3 then false
  else
    let firstCol := goToLower (goTrim (row.getD 0 ""))
    if headerWords.any (fun w => goContains firstCol w) then true
    else (parseRFC3339 (goTrim (row.getD 0 ""))).isNone

/-- `parseCSVRecords` (csv_scanner.go lines 226-293): the first row is
skipped when `isHeaderRow` classifies it as a header, and the remaining
rows run through the per-row loop. -/
def parseCSVRecords (records : List (List String)) : List SensorData × Nat :=
  match records with
  | [] => ([], 0)
  | r0 :: rest => if isHeaderRow r0 then parseRows rest else parseRows (r0 :: rest)

/-! ### Persistence (`batchInsertSensorData` and `individualInsert`)

The store models the `sensor_data` table's unique index on
`(timestamp, sensor_name)`: a list of present keys.  `db.CreateInBatches`
on a chunk of at most 1000 records issues one atomic insert, which fails
as a whole when any record's key conflicts (with the store or within the
chunk); `db.Create` inserts one record and fails on a key conflict. -/

/-- Unique key of a reading in the store. -/
def SensorData.key (d : SensorData) : GoTime × String := (d.timestamp, d.sensorName)

/-- The persisted store: the set of `(timestamp, sensor_name)` keys
present in the `sensor_data` table. -/
structure Store where
  keys : List (GoTime × String)
  deriving DecidableEq, Repr

/-- Key-presence test. -/
def Store.hasKey (st : Store) (k : GoTime × String) : Bool := st.keys.contains k

/-- Insert one record (`db.Create`): fails, leaving the store unchanged,
exactly on a duplicate key. -/
def dbCreate (st : Store) (d : SensorData) : Store × Bool :=
  if st.hasKey d.key then (st, false) else (⟨d.key :: st.keys⟩, true)

/-- Atomic chunk insert (`db.CreateInBatches` on one chunk): succeeds,
inserting every record, only when no record's key conflicts. -/
def dbCreateBatch (st : Store) (batch : List SensorData) : Option Store :=
  match batch with
  | [] => some st
  | d :: rest =>
    let (st', okIns) := dbCreate st d
    if okIns then dbCreateBatch st' rest else none

/-- `individualInsert` (csv_scanner.go lines 339-363): insert the chunk's
records one at a time, counting successes and remembering whether any
insert failed; the call returns an error only when it failed on every
record it was given at least one of. -/
def indStep (acc : Store × Nat × Bool) (d : SensorData) : Store × Nat × Bool :=
  let (st', okIns) := dbCreate acc.1 d
  if okIns then (st', acc.2.1 + 1, acc.2.2) else (acc.1, acc.2.1, true)

/-- Loop result of `individualInsert`: the final store, the success
count, and whether any insert failed (`lastError` non-nil). -/
def individualInsert (st : Store) (data : List SensorData) : Store × Bool :=
  let r := data.foldl indStep (st, 0, false)
  (r.1, r.2.1 == 0 && r.2.2)

/-- The fixed chunk size of `batchInsertSensorData`. -/
def batchSize : Nat := 1000

/-- The loop of `batchInsertSensorData` (csv_scanner.go lines 317-336):
walk the readings in chunks of 1000; a chunk whose atomic insert fails is
retried record-by-record and the function returns that retry's outcome at
once, never reaching later chunks.  Returns the store and whether an
error was returned.  The `Nat` argument is recursion fuel; the loop runs
out of readings before it runs out of fuel whenever the fuel is at least
the number of readings. -/
def batchInsertLoop : Nat → Store → List SensorData → Store × Bool
  | _, st, [] => (st, false)
  | 0, st, _ :: _ => (st, false)
  | fuel + 1, st, d :: ds =>
    let chunk := (d :: ds).take batchSize
    match dbCreateBatch st chunk with
    | some st' => batchInsertLoop fuel st' ((d :: ds).drop batchSize)
    | none => individualInsert st chunk

/-- Entry point of the chunk walk, with enough fuel for every chunk
(each iteration consumes at least one record, so `data.length` steps
always suffice; see `batchInsertLoop_fuel`). -/
def batchInsertSensorData (st : Store) (data : List SensorData) : Store × Bool :=
  batchInsertLoop data.length st data

/-! ### File processing, summary, directory scan -/

/-- What reading a file yields to the processor: an open failure, a CSV
read failure, or the decoded list of rows (a zero-byte file decodes to
the empty list). -/
inductive FileContent
  | openFailed
  | readFailed
  | rows (records : List (List String))

/-- File-level terminal errors a `ProcessResult` can carry. -/
inductive FileError
  | openError
  | readError
  | emptyFile
  | insertError
  deriving DecidableEq, Repr

/-- `ProcessResult` as the summary consumes it: parsed-record count,
row-error count, elapsed duration (opaque, in nanoseconds), and the
optional terminal error. -/
structure ProcessResult where
  recordCount : Nat
  errorCount : Nat
  duration : Nat
  error : Option FileError
  deriving DecidableEq, Repr

/-- `processCSVFile` (csv_scanner.go lines 169-223): unreadable and empty
files fail with a terminal error and zero counts; otherwise the rows are
parsed, the counts recorded, and a non-empty batch of readings is handed
to the persistence routine, whose failure becomes the file's terminal
error while the counts stand.  Returns the result and the updated
store. -/
def processCSVFile (st : Store) (content : FileContent) (dur : Nat) :
    ProcessResult × Store :=
  match content with
  | .openFailed => (⟨0, 0, dur, some .openError⟩, st)
  | .readFailed => (⟨0, 0, dur, some .readError⟩, st)
  | .rows records =>
    if records.length = 0 then (⟨0, 0, dur, some .emptyFile⟩, st)
    else
      let parsed := parseCSVRecords records
      if 0 < parsed.1.length then
        let ins := batchInsertSensorData st parsed.1
        if ins.2 then (⟨parsed.1.length, parsed.2, dur, some .insertError⟩, ins.1)
        else (⟨parsed.1.length, parsed.2, dur, none⟩, ins.1)
      else (⟨parsed.1.length, parsed.2, dur, none⟩, st)

/-- The totals `displaySummary` prints. -/
structure Summary where
  totalFiles : Nat
  successfulFiles : Nat
  failedFiles : Nat
  totalRecords : Nat
  totalErrors : Nat
  totalDuration : Nat
  deriving DecidableEq, Repr

/-- `displaySummary` (csv_scanner.go lines 366-400): every result counts
toward the file total and the duration total; results with a terminal
error count as failed, the rest count as successful and contribute their
record and error counts. -/
def summaryStep (acc : Summary) (r : ProcessResult) : Summary :=
  if r.error.isSome then
    { acc with
        failedFiles := acc.failedFiles + 1
        totalDuration := acc.totalDuration + r.duration }
  else
    { acc with
        successfulFiles := acc.successfulFiles + 1
        totalRecords := acc.totalRecords + r.recordCount
        totalErrors := acc.totalErrors + r.errorCount
        totalDuration := acc.totalDuration + r.duration }

/-- The whole summary: the file total is the length of the result list
and the loop accumulates the remaining five totals. -/
def displaySummary (results : List ProcessResult) : Summary :=
  results.foldl summaryStep ⟨results.length, 0, 0, 0, 0, 0⟩

/-- A directory entry as `os.ReadDir` lists it. -/
structure DirEntry where
  name : String
  isDir : Bool
  deriving DecidableEq, Repr

/-- A file job as `findCSVFiles` builds it. -/
structure FileJob where
  filePath : String
  fileName : String
  deriving DecidableEq, Repr

/-- The directory the scanner is pointed at: either absent or a list of
its direct entries (subdirectory entries carry `isDir`; their contents
are invisible to the non-recursive `os.ReadDir`). -/
inductive Dir
  | absent
  | present (entries : List DirEntry)

/-- Go `filepath.Ext`: the suffix of the name starting at its final dot,
or the empty string when the name has no dot. -/
def filepathExt (name : String) : String :=
  let rec go : List Char → Option (List Char)
    | [] => none
    | c :: rest =>
      match go rest with
      | some ext => some ext
      | none => if c = '.' then some (c :: rest) else none
  match go name.toList with
  | some ext => String.mk ext
  | none => ""

/-- `findCSVFiles` (csv_scanner.go lines 95-122): keep the direct entries
that are not directories and whose extension lower-cases to `.csv`,
joining the directory path onto each name. -/
def findCSVFiles (directoryPath : String) (entries : List DirEntry) : List FileJob :=
  (entries.filter (fun e => !e.isDir && goToLower (filepathExt e.name) == ".csv")).map
    (fun e => ⟨directoryPath ++ "/" ++ e.name, e.name⟩)

/-- Outcome of `ScanDirectory` abstracted to what the claims observe: the
not-found failure, or success carrying the job list handed to the worker
pool (an empty list is a success on which no file is processed). -/
def scanDirectory (dir : Dir) (directoryPath : String) :
    Except Unit (List FileJob) :=
  match dir with
  | .absent => .error ()
  | .present entries => .ok (findCSVFiles directoryPath entries)

/-! ### Helper lemmas -/

theorem batchInsertLoop_nil (f : Nat) (st : Store) : batchInsertLoop f st [] = (st, false) := by
  cases f <;> rfl

theorem batchInsertLoop_fuel (f1 f2 : Nat) (st : Store) (data : List SensorData)
    (h1 : data.length ≤ f1) (h2 : data.length ≤ f2) :
    batchInsertLoop f1 st data = batchInsertLoop f2 st data := by
  induction f1 generalizing f2 st data with
  | zero =>
    have hnil : data = [] := List.length_eq_zero.mp (Nat.le_zero.mp h1)
    subst hnil
    simp [batchInsertLoop_nil]
  | succ g ih =>
    cases data with
    | nil => simp [batchInsertLoop_nil]
    | cons d ds =>
      cases f2 with
      | zero => simp at h2
      | succ g2 =>
        simp only [batchInsertLoop]
        cases hdb : dbCreateBatch st ((d :: ds).take batchSize) with
        | none => rfl
        | some st' =>
          apply ih
          · simp only [List.length_drop, List.length_cons, batchSize]
            simp only [List.length_cons] at h1
            omega
          · simp only [List.length_drop, List.length_cons, batchSize]
            simp only [List.length_cons] at h2
            omega

theorem batchInsert_cons (st : Store) (d : SensorData) (ds : List SensorData) :
    batchInsertSensorData st (d :: ds) =
      match dbCreateBatch st ((d :: ds).take batchSize) with
      | some st' => batchInsertSensorData st' ((d :: ds).drop batchSize)
      | none => individualInsert st ((d :: ds).take batchSize) := by
  show batchInsertLoop (ds.length + 1) st (d :: ds) = _
  simp only [batchInsertLoop]
  cases hdb : dbCreateBatch st ((d :: ds).take batchSize) with
  | none => rfl
  | some st' =>
    exact batchInsertLoop_fuel ds.length ((d :: ds).drop batchSize).length st'
      ((d :: ds).drop batchSize)
      (by simp only [List.length_drop, List.length_cons, batchSize]; omega)
      (le_refl _)

theorem dbCreateBatch_dup_head (st : Store) (d : SensorData) (l : List SensorData)
    (h : st.hasKey d.key = true) : dbCreateBatch st (d :: l) = none := by
  simp [dbCreateBatch, dbCreate, h]

theorem indStep_foldl_dup (l : List SensorData) (st : Store) (n : Nat) (b : Bool)
    (h : ∀ d ∈ l, st.hasKey d.key = true) :
    l.foldl indStep (st, n, b) = (st, n, b || !l.isEmpty) := by
  induction l generalizing b with
  | nil => simp
  | cons d ds ih =>
    have hd : st.hasKey d.key = true := h d (by simp)
    have hstep : indStep (st, n, b) d = (st, n, true) := by
      simp [indStep, dbCreate, hd]
    rw [List.foldl_cons, hstep, ih true (fun d hmem => h d (by simp [hmem]))]
    simp

theorem individualInsert_allDup (st : Store) (l : List SensorData)
    (h : ∀ d ∈ l, st.hasKey d.key = true) (hne : l ≠ []) :
    individualInsert st l = (st, true) := by
  have hfold := indStep_foldl_dup l st 0 false h
  simp only [individualInsert, hfold]
  cases l with
  | nil => exact absurd rfl hne
  | cons d ds => simp

theorem displaySummary_foldl (l : List ProcessResult) (acc : Summary) :
    l.foldl summaryStep acc =
      ⟨acc.totalFiles,
       acc.successfulFiles + (l.filter fun r => r.error.isNone).length,
       acc.failedFiles + (l.filter fun r => r.error.isSome).length,
       acc.totalRecords + ((l.filter fun r => r.error.isNone).map fun r => r.recordCount).sum,
       acc.totalErrors + ((l.filter fun r => r.error.isNone).map fun r => r.errorCount).sum,
       acc.totalDuration + (l.map fun r => r.duration).sum⟩ := by
  induction l generalizing acc with
  | nil => simp
  | cons r rs ih =>
    cases he : r.error with
    | none =>
      rw [List.foldl_cons, ih]
      simp [summaryStep, he, List.filter_cons]
      omega
    | some e =>
      rw [List.foldl_cons, ih]
      simp [summaryStep, he, List.filter_cons]
      omega

theorem displaySummary_eq (l : List ProcessResult) :
    displaySummary l =
      ⟨l.length,
       (l.filter fun r => r.error.isNone).length,
       (l.filter fun r => r.error.isSome).length,
       ((l.filter fun r => r.error.isNone).map fun r => r.recordCount).sum,
       ((l.filter fun r => r.error.isNone).map fun r => r.errorCount).sum,
       (l.map fun r => r.duration).sum⟩ := by
  simpa [displaySummary] using displaySummary_foldl l ⟨l.length, 0, 0, 0, 0, 0⟩

theorem dbCreateBatch_dup (st : Store) (l : List SensorData) (hne : l ≠ [])
    (h : ∀ d ∈ l, st.hasKey d.key = true) : dbCreateBatch st l = none := by
  cases l with
  | nil => exact absurd rfl hne
  | cons d ds => exact dbCreateBatch_dup_head st d ds (h d (by simp))

theorem batchInsert_allDup (st : Store) (data : List SensorData) (hne : data ≠ [])
    (hdup : ∀ d ∈ data, st.hasKey d.key = true) :
    batchInsertSensorData st data = (st, true) := by
  cases data with
  | nil => exact absurd rfl hne
  | cons d ds =>
    have hchunkne : (d :: ds).take batchSize ≠ [] := by simp [batchSize]
    have hchunkdup : ∀ x ∈ (d :: ds).take batchSize, st.hasKey x.key = true :=
      fun x hx => hdup x (List.take_subset _ _ hx)
    have hdb : dbCreateBatch st ((d :: ds).take batchSize) = none :=
      dbCreateBatch_dup st _ hchunkne hchunkdup
    rw [batchInsert_cons]
    simp only [hdb]
    exact individualInsert_allDup st _ hchunkdup hchunkne

/-! ### Concrete data used by counterexamples and witnesses -/

/-- The three rows of the C1 scenario. -/
def c1File : List (List String) :=
  [["bad_ts", "temp_01", "21.8"],
   ["2025-09-05T08:00:00Z", "", "21.8"],
   ["2025-09-05T08:00:00Z", "temp_01", "notanumber"]]

/-- A one-row file whose value cell is the special spelling `NaN`. -/
def nanFile : List (List String) := [["2025-09-05T08:00:00Z", "temp_01", "NaN"]]

/-- A one-row file of ordinary data. -/
def c4File : List (List String) := [["2025-09-05T08:00:00Z", "temp_01", "21.8"]]

/-- A store already holding the key parsed from `c4File`'s single row. -/
def dupStore : Store := ⟨[(⟨1757059200, 0⟩, "temp_01")]⟩

/-- The reading parsed from `c4File`'s single row. -/
def dupReading : SensorData := ⟨⟨1757059200, 0⟩, "temp_01", "21.8"⟩

/-- Sample directory entries: one CSV file, one subdirectory, one other
file. -/
def sampleEntries : List DirEntry :=
  [⟨"a.csv", false⟩, ⟨"sensors", true⟩, ⟨"notes.txt", false⟩]

/-- A failed sample result. -/
def resFailed : ProcessResult := ⟨5, 1, 10, some .emptyFile⟩

/-- A successful sample result. -/
def resOk : ProcessResult := ⟨7, 2, 20, none⟩

/-! ### The claims -/

/-- C1, counterexample: on the file with rows `bad_ts,temp_01,21.8`,
`2025-09-05T08:00:00Z,,21.8` and `2025-09-05T08:00:00Z,temp_01,notanumber`,
processing yields ErrorCount 2, not the claimed 3: the first row's
unparseable first column makes `isHeaderRow` classify it as a header, so
it is skipped silently instead of being counted. -/
theorem c1_counterexample :
    (processCSVFile ⟨[]⟩ (.rows c1File) 0).1.recordCount = 0
    ∧ (processCSVFile ⟨[]⟩ (.rows c1File) 0).1.errorCount = 2
    ∧ ¬((processCSVFile ⟨[]⟩ (.rows c1File) 0).1.errorCount = 3) := by
  decide

/-- C1, amended: the same file yields RecordCount 0 and ErrorCount 2; the
first row is swallowed by header detection, and the two remaining rows
are rejected for distinct classified reasons (empty sensor name and
invalid value). -/
theorem c1_amended :
    isHeaderRow (c1File.getD 0 []) = true
    ∧ rowOutcomes (c1File.drop 1) = [.emptySensorName, .invalidValue]
    ∧ RowOutcome.emptySensorName ≠ RowOutcome.invalidValue
    ∧ parseCSVRecords c1File = ([], 2)
    ∧ (processCSVFile ⟨[]⟩ (.rows c1File) 0).1.error = none := by
  decide

/-- The header criterion exactly as C2's sentence states it (this is the
spec-side definition used for comparison against `isHeaderRow`): the
first column, lowercased and trimmed, contains a header word, or fails to
parse under RFC 3339 — with no other condition. -/
def specHeaderCriterion (row : List String) : Bool :=
  headerWords.any (fun w => goContains (goToLower (goTrim (row.getD 0 ""))) w)
    || (parseRFC3339 (goTrim (row.getD 0 ""))).isNone

/-- C2, counterexample: a two-column first row whose first cell is
literally `timestamp` satisfies the claim's criterion, yet the code does
not treat it as a header — it is processed as a data row and rejected for
insufficient columns, raising the error count. -/
theorem c2_counterexample :
    specHeaderCriterion ["timestamp", "value"] = true
    ∧ isHeaderRow ["timestamp", "value"] = false
    ∧ parseCSVRecords [["timestamp", "value"]] = ([], 1) := by
  decide

/-- C2, amended: a first row is classified as a header exactly when it
has at least 3 columns AND the claim's criterion holds (header word in
the lowercased trimmed first column, or RFC 3339 parse failure); only the
first row is subject to this check — the remaining rows always run
through the per-row parser. -/
theorem c2_amended (row : List String) (rest : List (List String)) :
    (isHeaderRow row = true ↔ 3 ≤ row.length ∧ specHeaderCriterion row = true)
    ∧ parseCSVRecords (row :: rest)
        = parseRows (if isHeaderRow row then rest else row :: rest) := by
  constructor
  · by_cases h : row.length < 3
    · have hn3 : ¬(3 ≤ row.length) := by omega
      simp [isHeaderRow, h, hn3]
    · have h3 : 3 ≤ row.length := by omega
      simp only [isHeaderRow, specHeaderCriterion, if_neg h]
      cases hany : headerWords.any (fun w => goContains (goToLower (goTrim (row.getD 0 ""))) w) with
      | true => simp [hany, h3]
      | false => simp [hany, h3]
  · cases hh : isHeaderRow row <;> simp [parseCSVRecords, hh]

/-- C3: the timestamp of a data row is parsed by trying RFC 3339, then
the zoneless ISO variant, then the space-separated variant, in that exact
order with the first success winning; a row of at least 3 columns on
which all three fail is classified as an invalid-timestamp error, the
error count rises by exactly 1, no reading is emitted for it, and the
remaining rows are processed unchanged. -/
theorem c3_timestamp_chain (rec : List String) (rest : List (List String))
    (h3 : 3 ≤ rec.length)
    (hfail : goParseTimestamp (goTrim (rec.getD 0 "")) = none) :
    (∀ s t, parseRFC3339 s = some t → goParseTimestamp s = some t)
    ∧ (∀ s t, parseRFC3339 s = none → parseISONoTZ s = some t → goParseTimestamp s = some t)
    ∧ (∀ s, parseRFC3339 s = none → parseISONoTZ s = none → goParseTimestamp s = parseSpaceSep s)
    ∧ parseRow rec = .invalidTimestamp
    ∧ parseRows (rec :: rest) = ((parseRows rest).1, (parseRows rest).2 + 1) := by
  have hskip : ¬(rec.length = 0 ∨ (rec.length = 1 ∧ goTrim (rec.getD 0 "") = "")) := by
    rintro (h0 | ⟨h1, _⟩) <;> omega
  have hlt : ¬(rec.length < 3) := by omega
  have hrow : parseRow rec = .invalidTimestamp := by
    simp only [parseRow]
    rw [if_neg hskip, if_neg hlt, hfail]
  refine ⟨?_, ?_, ?_, hrow, ?_⟩
  · intro s t h; simp [goParseTimestamp, h]
  · intro s t h1 h2; simp [goParseTimestamp, h1, h2]
  · intro s h1 h2; simp [goParseTimestamp, h1, h2]
  · simp [parseRows, hrow]

/-- C3, witness: the chain applied to the concrete row
`bad_ts,temp_01,21.8`, whose first column fails all three formats. -/
theorem c3_witness :
    3 ≤ (["bad_ts", "temp_01", "21.8"] : List String).length
    ∧ goParseTimestamp (goTrim ((["bad_ts", "temp_01", "21.8"] : List String).getD 0 "")) = none
    ∧ parseRow ["bad_ts", "temp_01", "21.8"] = .invalidTimestamp
    ∧ parseRows [["bad_ts", "temp_01", "21.8"]] = ([], 1) := by
  have h := c3_timestamp_chain ["bad_ts", "temp_01", "21.8"] [] (by decide) (by decide)
  exact ⟨by decide, by decide, h.2.2.2.1, by simpa using h.2.2.2.2⟩

/-- C5, counterexample: the row `2025-09-05T08:00:00Z,temp_01,NaN` is NOT
classified as an invalid-value error — Go's `ParseFloat` accepts the
spelling `NaN`, so the scanner emits a reading and counts no error,
against the claim that non-finite values are rejected. -/
theorem c5_counterexample :
    parseFloatAccepts "NaN" = true
    ∧ (parseCSVRecords nanFile).1.length = 1
    ∧ (parseCSVRecords nanFile).2 = 0
    ∧ rowOutcomes nanFile = [.ok ⟨⟨1757059200, 0⟩, "temp_01", "NaN"⟩] := by
  decide

/-- C5, amended: after the column-count, timestamp and sensor-name checks
pass, the trimmed third cell must be accepted by Go's `ParseFloat`
(which also accepts the non-finite spellings `NaN` and `Inf`): rejection
classifies the row as an invalid-value error, raises the error count by
exactly 1 and emits no reading; acceptance emits exactly one reading
carrying the cell's text. -/
theorem c5_amended (rec : List String) (rest : List (List String)) (t : GoTime)
    (h3 : 3 ≤ rec.length)
    (ht : goParseTimestamp (goTrim (rec.getD 0 "")) = some t)
    (hn : ¬(goTrim (rec.getD 1 "") = "")) :
    (parseFloatAccepts (goTrim (rec.getD 2 "")) = false →
      parseRow rec = .invalidValue
      ∧ parseRows (rec :: rest) = ((parseRows rest).1, (parseRows rest).2 + 1))
    ∧ (parseFloatAccepts (goTrim (rec.getD 2 "")) = true →
      parseRow rec = .ok ⟨t, goTrim (rec.getD 1 ""), goTrim (rec.getD 2 "")⟩
      ∧ parseRows (rec :: rest)
          = (⟨t, goTrim (rec.getD 1 ""), goTrim (rec.getD 2 "")⟩ :: (parseRows rest).1,
             (parseRows rest).2)) := by
  have hskip : ¬(rec.length = 0 ∨ (rec.length = 1 ∧ goTrim (rec.getD 0 "") = "")) := by
    rintro (h0 | ⟨h1, _⟩) <;> omega
  have hlt : ¬(rec.length < 3) := by omega
  constructor
  · intro hv
    have hrow : parseRow rec = .invalidValue := by
      simp only [parseRow]
      rw [if_neg hskip, if_neg hlt, ht]
      show (if goTrim (rec.getD 1 "") = "" then RowOutcome.emptySensorName
        else if parseFloatAccepts (goTrim (rec.getD 2 "")) = true then
          RowOutcome.ok ⟨t, goTrim (rec.getD 1 ""), goTrim (rec.getD 2 "")⟩
        else RowOutcome.invalidValue) = RowOutcome.invalidValue
      rw [if_neg hn, if_neg (show ¬(parseFloatAccepts (goTrim (rec.getD 2 "")) = true) by
        rw [hv]; decide)]
    exact ⟨hrow, by simp [parseRows, hrow]⟩
  · intro hv
    have hrow : parseRow rec = .ok ⟨t, goTrim (rec.getD 1 ""), goTrim (rec.getD 2 "")⟩ := by
      simp only [parseRow]
      rw [if_neg hskip, if_neg hlt, ht]
      show (if goTrim (rec.getD 1 "") = "" then RowOutcome.emptySensorName
        else if parseFloatAccepts (goTrim (rec.getD 2 "")) = true then
          RowOutcome.ok ⟨t, goTrim (rec.getD 1 ""), goTrim (rec.getD 2 "")⟩
        else RowOutcome.invalidValue)
        = RowOutcome.ok ⟨t, goTrim (rec.getD 1 ""), goTrim (rec.getD 2 "")⟩
      rw [if_neg hn, if_pos hv]
    exact ⟨hrow, by simp [parseRows, hrow]⟩

/-- C5, witness: the amended statement applied to the concrete row
`2025-09-05T08:00:00Z,temp_01,notanumber`. -/
theorem c5_witness :
    3 ≤ (["2025-09-05T08:00:00Z", "temp_01", "notanumber"] : List String).length
    ∧ goParseTimestamp
        (goTrim ((["2025-09-05T08:00:00Z", "temp_01", "notanumber"] : List String).getD 0 ""))
        = some ⟨1757059200, 0⟩
    ∧ ¬(goTrim ((["2025-09-05T08:00:00Z", "temp_01", "notanumber"] : List String).getD 1 "") = "")
    ∧ parseFloatAccepts
        (goTrim ((["2025-09-05T08:00:00Z", "temp_01", "notanumber"] : List String).getD 2 ""))
        = false
    ∧ parseRow ["2025-09-05T08:00:00Z", "temp_01", "notanumber"] = .invalidValue
    ∧ parseRows [["2025-09-05T08:00:00Z", "temp_01", "notanumber"]] = ([], 1) := by
  have h := (c5_amended ["2025-09-05T08:00:00Z", "temp_01", "notanumber"] [] ⟨1757059200, 0⟩
    (by decide) (by decide) (by decide)).1 (by decide)
  exact ⟨by decide, by decide, by decide, by decide, h.1, by simpa using h.2⟩

/-- C6: a file that decodes to zero rows (a zero-byte file included)
produces a result whose terminal error is the empty-file error with
RecordCount 0 and ErrorCount 0, leaves the store untouched, and the
summary counts exactly that result as one more failed file. -/
theorem c6_empty_file (st : Store) (dur : Nat) (rest : List ProcessResult) :
    processCSVFile st (.rows []) dur = (⟨0, 0, dur, some .emptyFile⟩, st)
    ∧ (processCSVFile st (.rows []) dur).1.recordCount = 0
    ∧ (processCSVFile st (.rows []) dur).1.errorCount = 0
    ∧ (displaySummary ((processCSVFile st (.rows []) dur).1 :: rest)).failedFiles
        = (displaySummary rest).failedFiles + 1 := by
  have h1 : processCSVFile st (.rows []) dur = (⟨0, 0, dur, some .emptyFile⟩, st) := rfl
  refine ⟨h1, by rw [h1], by rw [h1], ?_⟩
  rw [h1]
  simp [displaySummary_eq, List.filter_cons]

/-- C4, counterexample: re-running over a store that already holds the
single reading of `c4File` marks the file FAILED — the batch insert hits
the duplicate key, the per-record fallback then fails on every record,
`individualInsert` returns its "failed to insert any records" error, and
the summary counts the file as failed, against the claim that no file
fails solely because all of its records were duplicates.  The store is
unchanged (0 net new records). -/
theorem c4_counterexample :
    (processCSVFile dupStore (.rows c4File) 0).1.error = some .insertError
    ∧ (processCSVFile dupStore (.rows c4File) 0).2 = dupStore
    ∧ (displaySummary [(processCSVFile dupStore (.rows c4File) 0).1]).failedFiles = 1 := by
  decide

/-- C4, amended: re-running a file against a store that already contains
all of its readings inserts 0 net new records and every duplicate-key
conflict goes through the individual-insert fallback; but because the
fallback succeeded on no record, it returns an error, so the file's
result carries a terminal insert error (the file is marked failed) while
its parse counts stand. -/
theorem c4_amended (st : Store) (records : List (List String)) (dur : Nat)
    (hne : ¬((parseCSVRecords records).1 = []))
    (hdup : ∀ d ∈ (parseCSVRecords records).1, st.hasKey d.key = true) :
    batchInsertSensorData st (parseCSVRecords records).1 = (st, true)
    ∧ processCSVFile st (.rows records) dur
        = (⟨(parseCSVRecords records).1.length, (parseCSVRecords records).2, dur,
            some FileError.insertError⟩, st) := by
  have hbatch := batchInsert_allDup st _ hne hdup
  have hlen0 : ¬(records.length = 0) := by
    intro h0
    have hnil : records = [] := List.length_eq_zero.mp h0
    rw [hnil] at hne
    exact hne rfl
  have hpos : 0 < (parseCSVRecords records).1.length := List.length_pos.mpr hne
  refine ⟨hbatch, ?_⟩
  simp only [processCSVFile]
  rw [if_neg hlen0, if_pos hpos, hbatch]
  rfl

/-- C4, witness: the amended statement applied to the one-row file and
the store already holding its key. -/
theorem c4_witness :
    ¬((parseCSVRecords c4File).1 = [])
    ∧ (∀ d ∈ (parseCSVRecords c4File).1, dupStore.hasKey d.key = true)
    ∧ batchInsertSensorData dupStore (parseCSVRecords c4File).1 = (dupStore, true)
    ∧ processCSVFile dupStore (.rows c4File) 0 = (⟨1, 0, 0, some .insertError⟩, dupStore) := by
  have h := c4_amended dupStore c4File 0 (by decide) (by decide)
  refine ⟨by decide, by decide, h.1, ?_⟩
  rw [h.2]
  decide

/-- C7: the Directory Scanner fails with the not-found error exactly on
an absent directory; on a present one it succeeds with exactly the
direct-child non-directory entries whose extension lower-cases to
`.csv` (in entry order, paths joined onto the directory), and when no
entry qualifies it succeeds with the empty job list. -/
theorem c7_directory_scan :
    (∀ path, scanDirectory Dir.absent path = Except.error ())
    ∧ (∀ path entries,
        scanDirectory (Dir.present entries) path = Except.ok (findCSVFiles path entries))
    ∧ (∀ path entries (job : FileJob),
        job ∈ findCSVFiles path entries
          ↔ ∃ e, e ∈ entries ∧ e.isDir = false ∧ goToLower (filepathExt e.name) = ".csv"
              ∧ job = ⟨path ++ "/" ++ e.name, e.name⟩)
    ∧ (∀ path entries,
        (∀ e ∈ entries, e.isDir = true ∨ ¬(goToLower (filepathExt e.name) = ".csv"))
          → scanDirectory (Dir.present entries) path = Except.ok []) := by
  refine ⟨fun path => rfl, fun path entries => rfl, ?_, ?_⟩
  · intro path entries job
    constructor
    · intro hmem
      simp only [findCSVFiles, List.mem_map] at hmem
      obtain ⟨e, hmemf, heq⟩ := hmem
      rw [List.mem_filter] at hmemf
      obtain ⟨hmem', hcond⟩ := hmemf
      have hdir : e.isDir = false := by
        cases hb : e.isDir
        · rfl
        · rw [hb] at hcond; simp at hcond
      have hext : goToLower (filepathExt e.name) = ".csv" := by
        rw [hdir] at hcond
        simpa using hcond
      exact ⟨e, hmem', hdir, hext, heq.symm⟩
    · rintro ⟨e, hmem', hdir, hext, rfl⟩
      simp only [findCSVFiles, List.mem_map]
      refine ⟨e, ?_, rfl⟩
      rw [List.mem_filter]
      exact ⟨hmem', by simp [hdir, hext]⟩
  · intro path entries hall
    have hf : entries.filter (fun e => !e.isDir && (goToLower (filepathExt e.name) == ".csv"))
        = [] := by
      rw [List.filter_eq_nil_iff]
      intro e hmem
      rcases hall e hmem with hd | hx
      · simp [hd]
      · simp [hx]
    simp [scanDirectory, findCSVFiles, hf]

/-- C7, witness: the scanner applied to a sample directory holding one
CSV file, one subdirectory and one unrelated file, to the absent
directory, and to a directory with no matching file. -/
theorem c7_witness :
    scanDirectory Dir.absent "data" = Except.error ()
    ∧ scanDirectory (Dir.present sampleEntries) "data"
        = Except.ok [⟨"data" ++ "/" ++ "a.csv", "a.csv"⟩]
    ∧ (⟨"data" ++ "/" ++ "a.csv", "a.csv"⟩ : FileJob) ∈ findCSVFiles "data" sampleEntries
    ∧ scanDirectory (Dir.present [⟨"notes.txt", false⟩]) "data" = Except.ok [] := by
  have h := c7_directory_scan
  refine ⟨h.1 "data", ?_, ?_, ?_⟩
  · have hfind : findCSVFiles "data" sampleEntries
        = [⟨"data" ++ "/" ++ "a.csv", "a.csv"⟩] := by decide
    rw [h.2.1 "data" sampleEntries, hfind]
  · exact (h.2.2.1 "data" sampleEntries ⟨"data" ++ "/" ++ "a.csv", "a.csv"⟩).mpr
      ⟨⟨"a.csv", false⟩, by decide, rfl, by decide, rfl⟩
  · refine h.2.2.2 "data" [⟨"notes.txt", false⟩] ?_
    intro e hmem
    have he : e = ⟨"notes.txt", false⟩ := by simpa using hmem
    subst he
    right
    decide

/-- C8: the summary is invariant under every permutation of the result
list, and each result contributes commutatively: a failed result adds 1
to the file and failed counts and its duration to the duration total; a
successful one adds 1 to the file and successful counts and its record,
error and duration figures to the respective totals. -/
theorem c8_summary_commutative (l1 l2 : List ProcessResult) (hp : l1.Perm l2) :
    displaySummary l1 = displaySummary l2
    ∧ ∀ (r : ProcessResult) (l : List ProcessResult),
        (r.error.isSome = true →
          displaySummary (r :: l)
            = ⟨(displaySummary l).totalFiles + 1, (displaySummary l).successfulFiles,
               (displaySummary l).failedFiles + 1, (displaySummary l).totalRecords,
               (displaySummary l).totalErrors, (displaySummary l).totalDuration + r.duration⟩)
        ∧ (r.error.isSome = false →
          displaySummary (r :: l)
            = ⟨(displaySummary l).totalFiles + 1, (displaySummary l).successfulFiles + 1,
               (displaySummary l).failedFiles, (displaySummary l).totalRecords + r.recordCount,
               (displaySummary l).totalErrors + r.errorCount,
               (displaySummary l).totalDuration + r.duration⟩) := by
  constructor
  · rw [displaySummary_eq, displaySummary_eq]
    have hfn := hp.filter (fun r => r.error.isNone)
    have hfs := hp.filter (fun r => r.error.isSome)
    rw [hp.length_eq, hfn.length_eq, hfs.length_eq,
      (hfn.map (fun r => r.recordCount)).sum_eq,
      (hfn.map (fun r => r.errorCount)).sum_eq,
      (hp.map (fun r => r.duration)).sum_eq]
  · intro r l
    refine ⟨fun hr => ?_, fun hr => ?_⟩
    · have he : r.error.isNone = false := by
        cases hc : r.error
        · rw [hc] at hr; simp at hr
        · simp [hc]
      simp [displaySummary_eq, List.filter_cons, hr, he, Summary.mk.injEq]
      omega
    · have he : r.error.isNone = true := by
        cases hc : r.error
        · simp [hc]
        · rw [hc] at hr; simp at hr
      simp [displaySummary_eq, List.filter_cons, hr, he, Summary.mk.injEq]
      omega

/-- C8, witness: swapping a failed and a successful result leaves the
summary unchanged. -/
theorem c8_witness :
    ([resFailed, resOk].Perm [resOk, resFailed])
    ∧ displaySummary [resFailed, resOk] = displaySummary [resOk, resFailed]
    ∧ displaySummary [resFailed, resOk] = ⟨2, 1, 1, 7, 2, 30⟩ := by
  have hperm : [resFailed, resOk].Perm [resOk, resFailed] := List.Perm.swap resOk resFailed []
  exact ⟨hperm, (c8_summary_commutative [resFailed, resOk] [resOk, resFailed] hperm).1, by decide⟩

/-- C9: when the atomic batch insert of a full 1000-record chunk fails,
the persistence routine runs the per-record fallback for that chunk and
returns its outcome at once: for EVERY list of subsequent records the
result equals the fallback on the failing chunk alone, so no later chunk
is ever attempted, as batch or individually. -/
theorem c9_failed_chunk_halts (st : Store) (chunk : List SensorData)
    (hlen : chunk.length = batchSize)
    (hfail : dbCreateBatch st chunk = none) :
    ∀ rest : List SensorData,
      batchInsertSensorData st (chunk ++ rest) = individualInsert st chunk := by
  intro rest
  cases chunk with
  | nil => rw [batchSize] at hlen; simp at hlen
  | cons d ds =>
    have htake : ((d :: ds) ++ rest).take batchSize = d :: ds := List.take_left' hlen
    rw [List.cons_append] at htake
    rw [List.cons_append, batchInsert_cons, htake, hfail]

/-- C9, witness: a store already holding the key of `dupReading`, a full
chunk of 1000 copies of it whose batch insert fails, and one further
record that is never attempted. -/
theorem c9_witness :
    (dupReading :: List.replicate 999 dupReading).length = batchSize
    ∧ dbCreateBatch dupStore (dupReading :: List.replicate 999 dupReading) = none
    ∧ batchInsertSensorData dupStore
        ((dupReading :: List.replicate 999 dupReading) ++ [dupReading])
        = individualInsert dupStore (dupReading :: List.replicate 999 dupReading) := by
  have hlen : (dupReading :: List.replicate 999 dupReading).length = batchSize := by
    simp [batchSize]
  have hfail : dbCreateBatch dupStore (dupReading :: List.replicate 999 dupReading) = none :=
    dbCreateBatch_dup_head dupStore dupReading _ (by decide)
  exact ⟨hlen, hfail, c9_failed_chunk_halts dupStore _ hlen hfail [dupReading]⟩

theorem goParseTimestamp_rfcFail (s : String) (h : parseRFC3339 s = none) :
    goParseTimestamp s
      = (match parseISONoTZ s with
         | some t => some t
         | none => parseSpaceSep s) := by
  simp only [goParseTimestamp, h]

/-- C10: a first row with at least 3 columns, no header word in its first
column, and a first column that fails RFC 3339 while parsing under the
zoneless or space-separated format, is classified as a header and
silently skipped — the remaining rows are parsed as if the row were not
there, so no reading is emitted for it and the error count is untouched,
even though its timestamp is valid under the accepted format list. -/
theorem c10_header_false_positive (rec : List String) (rest : List (List String))
    (h3 : 3 ≤ rec.length)
    (hw : headerWords.all
        (fun w => !goContains (goToLower (goTrim (rec.getD 0 ""))) w) = true)
    (hrfc : parseRFC3339 (goTrim (rec.getD 0 "")) = none)
    (halt : (parseISONoTZ (goTrim (rec.getD 0 ""))).isSome = true
            ∨ (parseSpaceSep (goTrim (rec.getD 0 ""))).isSome = true) :
    isHeaderRow rec = true
    ∧ (goParseTimestamp (goTrim (rec.getD 0 ""))).isSome = true
    ∧ parseCSVRecords (rec :: rest) = parseRows rest := by
  have hlt : ¬(rec.length < 3) := by omega
  have hany : headerWords.any
      (fun w => goContains (goToLower (goTrim (rec.getD 0 ""))) w) = false := by
    cases hany : headerWords.any (fun w => goContains (goToLower (goTrim (rec.getD 0 ""))) w) with
    | false => rfl
    | true =>
      exfalso
      obtain ⟨w, hwmem, hcontains⟩ := List.any_eq_true.mp hany
      have hnc := List.all_eq_true.mp hw w hwmem
      rw [hcontains] at hnc
      simp at hnc
  have hhead : isHeaderRow rec = true := by
    simp only [isHeaderRow]
    rw [if_neg hlt]
    have hnotany : ¬(headerWords.any
        (fun w => goContains (goToLower (goTrim (rec.getD 0 ""))) w) = true) := by
      rw [hany]; decide
    rw [if_neg hnotany, hrfc]
    rfl
  refine ⟨hhead, ?_, by simp [parseCSVRecords, hhead]⟩
  rcases halt with h | h
  · obtain ⟨t, ht⟩ := Option.isSome_iff_exists.mp h
    rw [goParseTimestamp_rfcFail _ hrfc, ht]
    rfl
  · cases hiso : parseISONoTZ (goTrim (rec.getD 0 "")) with
    | some t2 =>
      rw [goParseTimestamp_rfcFail _ hrfc, hiso]
      rfl
    | none =>
      obtain ⟨t, ht⟩ := Option.isSome_iff_exists.mp h
      rw [goParseTimestamp_rfcFail _ hrfc, hiso, ht]
      rfl

/-- C10, witness: the row `2025-09-05T08:00:00,temp_01,21.8` (zoneless
timestamp) as first row of a one-row file: it is swallowed as a header
and the file parses to zero readings with zero errors. -/
theorem c10_witness :
    3 ≤ (["2025-09-05T08:00:00", "temp_01", "21.8"] : List String).length
    ∧ headerWords.all
        (fun w => !goContains
          (goToLower (goTrim ((["2025-09-05T08:00:00", "temp_01", "21.8"] : List String).getD 0 ""))) w)
        = true
    ∧ parseRFC3339
        (goTrim ((["2025-09-05T08:00:00", "temp_01", "21.8"] : List String).getD 0 "")) = none
    ∧ (parseISONoTZ
        (goTrim ((["2025-09-05T08:00:00", "temp_01", "21.8"] : List String).getD 0 ""))).isSome = true
    ∧ isHeaderRow ["2025-09-05T08:00:00", "temp_01", "21.8"] = true
    ∧ parseCSVRecords [["2025-09-05T08:00:00", "temp_01", "21.8"]] = ([], 0) := by
  have h := c10_header_false_positive ["2025-09-05T08:00:00", "temp_01", "21.8"] []
    (by decide) (by decide) (by decide) (Or.inl (by decide))
  exact ⟨by decide, by decide, by decide, by decide, h.1, by simpa [parseRows] using h.2.2⟩

end SensorImport

/-! Sanity checks of the embedded Go standard-library models and of the
record parser on concrete inputs. -/

example : SensorImport.parseFloatAccepts "21.8" = true := by decide
example : SensorImport.parseFloatAccepts "22.1" = true := by decide
example : SensorImport.parseFloatAccepts "notanumber" = false := by decide
example : SensorImport.parseFloatAccepts "NaN" = true := by decide
example : SensorImport.parseFloatAccepts "-Inf" = true := by decide
example : SensorImport.parseFloatAccepts "+infinity" = true := by decide
example : SensorImport.parseFloatAccepts "" = false := by decide
example : SensorImport.parseFloatAccepts "1e10" = true := by decide
example : SensorImport.parseFloatAccepts "1e309" = false := by decide
example : SensorImport.parseFloatAccepts "1e308" = true := by decide
example : SensorImport.parseFloatAccepts "1_0" = true := by decide
example : SensorImport.parseFloatAccepts "_10" = false := by decide
example : SensorImport.parseFloatAccepts "0x1p3" = true := by decide
example : SensorImport.parseFloatAccepts "0x1" = false := by decide
example : SensorImport.parseFloatAccepts "1e" = false := by decide
example : SensorImport.parseFloatAccepts "1.5.2" = false := by decide
example : SensorImport.parseFloatAccepts "-12.5e-3" = true := by decide
example :
    SensorImport.parseCSVRecords
      [["bad_ts", "temp_01", "21.8"],
       ["2025-09-05T08:00:00Z", "", "21.8"],
       ["2025-09-05T08:00:00Z", "temp_01", "notanumber"]]
    = ([], 2) := by decide
example : SensorImport.isHeaderRow ["timestamp", "sensor_name", "value"] = true := by decide
example : SensorImport.isHeaderRow ["timestamp", "value"] = false := by decide
example : SensorImport.isHeaderRow ["2025-09-05T08:00:00Z", "a", "1"] = false := by decide
example : SensorImport.isHeaderRow ["2025-09-05T08:00:00", "a", "1"] = true := by decide
example :
    (SensorImport.parseCSVRecords
      [["2025-09-05T08:00:00Z", "temp_01", "NaN"]]).2 = 0 := by decide
example :
    (SensorImport.parseCSVRecords
      [["timestamp", "sensor_name", "value"],
       ["2025-09-05T08:00:00Z", "temp_01", "21.8"],
       ["2025-09-05T08:05:00Z", "temp_01", "22.1"]])
    = ([⟨⟨1757059200, 0⟩, "temp_01", "21.8"⟩, ⟨⟨1757059500, 0⟩, "temp_01", "22.1"⟩], 0) := by
  decide
example : SensorImport.filepathExt "data.CSV" = ".CSV" := by decide
example : SensorImport.filepathExt "noext" = "" := by decide
example : SensorImport.goToLower (SensorImport.filepathExt "a.CsV") = ".csv" := by decide

example : (SensorImport.goParseTimestamp "2025-09-05T08:00:00Z").isSome = true := by decide
example : (SensorImport.parseRFC3339 "2025-09-05T08:00:00").isSome = false := by decide
example : (SensorImport.parseISONoTZ "2025-09-05T08:00:00").isSome = true := by decide
example : (SensorImport.parseSpaceSep "2025-09-05 08:00:00").isSome = true := by decide
example : (SensorImport.goParseTimestamp "bad_ts").isSome = false := by decide
example : SensorImport.goContains "timestamp" "time" = true := by decide
example : SensorImport.goContains "bad_ts" "time" = false := by decide
example : SensorImport.goParseTimestamp "2025-09-05T08:00:00Z"
    = some ⟨1757059200, 0⟩ := by decide
